import Mathlib

/-!
Verification of the camera device session engine of the lva-edge-iot-central-gateway
reference application (services/device.ts, avaDevice.ts, amsGraph.ts, cameraGateway.ts).

Shallow embedding: the relevant TypeScript functions are translated into pure Lean
functions.  JavaScript values are modelled by `JSVal`; asynchronous remote calls are
modelled by passing their outcomes (`Except Unit _` for calls that can throw) as
explicit environment arguments; in-place mutation becomes explicit state passing.
-/

namespace LvaGateway

/-- Model of a JavaScript value, sufficient for the twin-property payloads handled by
`AvaCameraDevice.onHandleDeviceProperties` (device.ts). -/
inductive JSVal where
  | jsUndefined
  | jsNull
  | jsBool (b : Bool)
  | num (n : Int)
  | str (s : String)
  | obj (fields : List (String × JSVal))
deriving Repr, BEq

/-- JavaScript truthiness (`if (x)`, `x || y`). `NaN` is not modelled: the settings
payloads are plain JSON numbers. -/
def JSVal.truthy : JSVal → Bool
  | .jsUndefined => false
  | .jsNull => false
  | .jsBool b => b
  | .num n => n != 0
  | .str s => s != ""
  | .obj _ => true

/-- The JavaScript `||` operator. -/
def jsOr (a b : JSVal) : JSVal :=
  if a.truthy then a else b

/-- Property read `v[key]` on a value known to be usable as an object
(returns `undefined` for a missing key and for primitive bases). -/
def JSVal.objGet (v : JSVal) (key : String) : JSVal :=
  match v with
  | .obj fields => (fields.lookup key).getD .jsUndefined
  | _ => .jsUndefined

/-- `Object.prototype.hasOwnProperty.call(v, 'value')` (device.ts line 427).
`ToObject` throws a `TypeError` when `v` is `undefined` or `null`; a string has only
index own-properties and `length`; other primitives have no own properties. -/
def jsHasOwnValue : JSVal → Except Unit Bool
  | .jsUndefined => .error ()
  | .jsNull => .error ()
  | .obj fields => .ok (fields.any (fun f => f.1 == "value"))
  | _ => .ok false

/-- The keys enumerated by `for (const setting in v)`: own enumerable string keys of an
object (insertion order), index keys of a string, nothing for other primitives. -/
def forInFields : JSVal → List (String × JSVal)
  | .obj fields => fields
  | .str s => s.toList.enum.map (fun p => (toString p.1, JSVal.str (String.mk [p.2])))
  | _ => []

/-! ## Device settings and twin-property reconciliation (device.ts) -/

/-- The mutable per-device settings of `AvaCameraDevice` (device.ts lines 156-167):
`onvifCameraSettings`, `avaEdgeOperationsSettings`, `avaEdgeDiagnosticsSettings`,
`aiInferenceSettings`, flattened into one record.  Fields hold `JSVal` because the
reconciliation loop stores whatever `value || default` evaluates to. -/
structure CameraSettings where
  wpVideoPlaybackHost : JSVal
  wpMaxVideoInferenceTime : JSVal
  wpDebugTelemetry : JSVal
  wpInferenceTimeout : JSVal
deriving Repr

/-- `defaultVideoPlaybackHost` (device.ts line 72). -/
def defaultVideoPlaybackHost : JSVal := .str "http://localhost:8094"

/-- `defaultInferenceTimeout` (device.ts line 73). -/
def defaultInferenceTimeout : JSVal := .num 5

/-- `defaultMaxVideoInferenceTime` (device.ts line 74). -/
def defaultMaxVideoInferenceTime : JSVal := .num 10

/-- The initial settings state (device.ts lines 156-167). -/
def defaultCameraSettings : CameraSettings :=
  { wpVideoPlaybackHost := defaultVideoPlaybackHost
    wpMaxVideoInferenceTime := defaultMaxVideoInferenceTime
    wpDebugTelemetry := .jsBool false
    wpInferenceTimeout := defaultInferenceTimeout }

/-- The reported-property acknowledgement object
`{value: v, ac: 200, ad: 'completed', av: version}` (device.ts lines 433-438). -/
def patchValue (v version : JSVal) : JSVal :=
  .obj [("value", v), ("ac", .num 200), ("ad", .str "completed"), ("av", version)]

/-- One iteration of the `for (const setting in desiredChangedSettings)` loop of
`AvaCameraDevice.onHandleDeviceProperties` (device.ts lines 418-471): skip `$version`,
unwrap a `{value: ...}` wrapper (this `hasOwnProperty` call throws when the entry is
`undefined` or `null`), then store `value || default` for each recognized key and build
the acknowledgement patch entry.  Unrecognized keys fall through the `switch` default. -/
def reconcileStep (st : CameraSettings) (version : JSVal) (key : String) (raw : JSVal) :
    Except Unit (CameraSettings × Option (String × JSVal)) :=
  if key = "$version" then .ok (st, none)
  else
    match jsHasOwnValue raw with
    | .error e => .error e
    | .ok hasVal =>
      let value := if hasVal then raw.objGet "value" else raw
      if key = "wpVideoPlaybackHost" then
        let v := jsOr value defaultVideoPlaybackHost
        .ok ({ st with wpVideoPlaybackHost := v }, some (key, patchValue v version))
      else if key = "wpMaxVideoInferenceTime" then
        let v := jsOr value defaultMaxVideoInferenceTime
        .ok ({ st with wpMaxVideoInferenceTime := v }, some (key, patchValue v version))
      else if key = "wpDebugTelemetry" then
        let v := jsOr value (.jsBool false)
        .ok ({ st with wpDebugTelemetry := v }, some (key, patchValue v version))
      else if key = "wpInferenceTimeout" then
        let v := jsOr value defaultInferenceTimeout
        .ok ({ st with wpInferenceTimeout := v }, some (key, patchValue v version))
      else
        .ok (st, none)

/-- The whole loop.  The settings are mutated in place by the source, so when an
iteration throws, the assignments already performed persist: the result carries the
settings state reached at the point of the throw, together with the accumulated patch
and a flag recording whether an exception escaped the loop. -/
def reconcileLoop (st : CameraSettings) (version : JSVal) :
    List (String × JSVal) → CameraSettings × List (String × JSVal) × Bool
  | [] => (st, [], false)
  | (k, raw) :: rest =>
    match reconcileStep st version k raw with
    | .error _ => (st, [], true)
    | .ok (st1, entry) =>
      let (st2, patch, threw) := reconcileLoop st1 version rest
      (st2, entry.toList ++ patch, threw)

/-- `AvaCameraDevice.onHandleDeviceProperties` (device.ts lines 409-480): run the loop
inside the `try`; on an exception the `catch` only logs, so no reported patch is sent;
otherwise the patch is sent iff it is non-empty (`!emptyObj(patchedProperties)`).
Returns the settings after the call and `some patch` iff `updateDeviceProperties`
was invoked. -/
def onHandleDeviceProperties (st : CameraSettings) (desired : JSVal) :
    CameraSettings × Option (List (String × JSVal)) :=
  let version := desired.objGet "$version"
  let r := reconcileLoop st version (forInFields desired)
  if r.2.2 then (r.1, none)
  else if r.2.1.isEmpty then (r.1, none)
  else (r.1, some r.2.1)

/-- The recognized setting keys of the device-settings schema (device.ts lines 68-138). -/
def recognizedSettingKeys : List String :=
  ["wpVideoPlaybackHost", "wpMaxVideoInferenceTime", "wpDebugTelemetry", "wpInferenceTimeout"]

/-- Read a recognized setting from the settings record by its schema key. -/
def settingValue (st : CameraSettings) (key : String) : JSVal :=
  if key = "wpVideoPlaybackHost" then st.wpVideoPlaybackHost
  else if key = "wpMaxVideoInferenceTime" then st.wpMaxVideoInferenceTime
  else if key = "wpDebugTelemetry" then st.wpDebugTelemetry
  else if key = "wpInferenceTimeout" then st.wpInferenceTimeout
  else .jsUndefined

/-- The documented default of a recognized setting. -/
def settingDefault (key : String) : JSVal :=
  if key = "wpVideoPlaybackHost" then defaultVideoPlaybackHost
  else if key = "wpMaxVideoInferenceTime" then defaultMaxVideoInferenceTime
  else if key = "wpDebugTelemetry" then .jsBool false
  else if key = "wpInferenceTimeout" then defaultInferenceTimeout
  else .jsUndefined

/-- A settings value is concrete when it is neither `undefined` nor `null`. -/
def JSVal.concrete : JSVal → Prop
  | .jsUndefined => False
  | .jsNull => False
  | _ => True

/-- Every recognized setting holds a concrete value. -/
def SettingsConcrete (st : CameraSettings) : Prop :=
  st.wpVideoPlaybackHost.concrete ∧ st.wpMaxVideoInferenceTime.concrete ∧
    st.wpDebugTelemetry.concrete ∧ st.wpInferenceTimeout.concrete

/-! ## AVA event telemetry dispatch (device.ts `sendAvaEvent`) -/

/-- String conversion used by template literals (`String(v)`). -/
def JSVal.display : JSVal → String
  | .jsUndefined => "undefined"
  | .jsNull => "null"
  | .jsBool b => if b then "true" else "false"
  | .num n => toString n
  | .str s => s
  | .obj _ => "[object Object]"

/-- Optional chaining `v?.key`. -/
def jsOptChain (v : JSVal) (key : String) : JSVal :=
  match v with
  | .jsUndefined => .jsUndefined
  | .jsNull => .jsUndefined
  | _ => v.objGet key

/-- The `switch (avaEvent)` of `AvaCameraDevice.sendAvaEvent` (device.ts lines
260-324): computes the pair (`eventField`, `eventValue`).  `eventField` is declared
without an initializer and stays `undefined` (`none`) in the default case;
`eventValue` is initialized to `cameraId`. -/
def avaEventSwitch (avaEvent : String) (messageJson : JSVal) (cameraId : String) :
    Option String × JSVal :=
  if avaEvent = "Microsoft.VideoAnalyzer.Operational.RecordingStarted" then
    (some "evRecordingStarted", jsOr (jsOptChain messageJson "outputLocation") (.str cameraId))
  else if avaEvent = "Microsoft.VideoAnalyzer.Operational.RecordingStopped" then
    (some "evRecordingStopped", jsOr (jsOptChain messageJson "outputLocation") (.str cameraId))
  else if avaEvent = "Microsoft.VideoAnalyzer.Operational.RecordingAvailable" then
    (some "evRecordingAvailable", jsOr (jsOptChain messageJson "outputLocation") (.str cameraId))
  else if avaEvent = "Microsoft.VideoAnalyzer.Diagnostics.RuntimeError" then
    (some "evRuntimeError", jsOr (jsOptChain messageJson "code") (.str cameraId))
  else if avaEvent = "Microsoft.VideoAnalyzer.Diagnostics.AuthenticationError" then
    (some "evAuthenticationError", jsOr (jsOptChain messageJson "errorCode") (.str cameraId))
  else if avaEvent = "Microsoft.VideoAnalyzer.Diagnostics.AuthorizationError" then
    (some "evAuthorizationError", jsOr (jsOptChain messageJson "errorCode") (.str cameraId))
  else if avaEvent = "Microsoft.VideoAnalyzer.Diagnostics.DataDropped" then
    (some "evDataDropped", jsOr (jsOptChain messageJson "dataType") (.str cameraId))
  else if avaEvent = "Microsoft.VideoAnalyzer.Diagnostics.MediaFormatError" then
    (some "evMediaFormatError", jsOr (jsOptChain messageJson "code") (.str cameraId))
  else if avaEvent = "Microsoft.VideoAnalyzer.Diagnostics.MediaSessionEstablished" then
    (some "evMediaSessionEstablished", .str cameraId)
  else if avaEvent = "Microsoft.VideoAnalyzer.Diagnostics.NetworkError" then
    (some "evNetworkError", jsOr (jsOptChain messageJson "errorCode") (.str cameraId))
  else if avaEvent = "Microsoft.VideoAnalyzer.Diagnostics.ProtocolError" then
    (some "evProtocolError",
      jsOr (.str ((jsOptChain messageJson "protocol").display ++ ": " ++
        (jsOptChain messageJson "errorCode").display)) (.str cameraId))
  else if avaEvent = "Microsoft.VideoAnalyzer.Diagnostics.StorageError" then
    (some "evStorageError", jsOr (jsOptChain messageJson "storageAccountName") (.str cameraId))
  else (none, .str cameraId)

/-- `AvaCameraDevice.sendAvaEvent` (device.ts lines 256-334): after the `switch`, the
guard `if (avaEvent)` tests only the truthiness of the event string; a truthy event
sends `{[eventField]: eventValue}`, where a computed key that is the `undefined`
variable becomes the literal object key `"undefined"`.  Returns the measurement sent,
or `none` when the guard skips the send. -/
def sendAvaEvent (avaEvent : String) (messageJson : JSVal) (cameraId : String) :
    Option (List (String × JSVal)) :=
  let r := avaEventSwitch avaEvent messageJson cameraId
  if avaEvent ≠ "" then
    some [(r.1.getD "undefined", r.2)]
  else
    none

/-! ## AmsGraph pipeline lifecycle (amsGraph.ts) -/

/-- A direct-method response `{status, payload}` from a collaborator module. -/
structure RemoteResponse where
  status : Nat
  payload : String
deriving Repr, DecidableEq

/-- Whether an HTTP-style status is a 2xx success. -/
def is2xx (s : Nat) : Prop := 200 ≤ s ∧ s < 300

/-- `AmsGraph.resolveOnvifRtspConnection` (amsGraph.ts lines 197-218): on a thrown
transport error the inner `catch` logs, leaving `this.rtspUrl` as it was; otherwise
`rtspUrl` becomes the payload when the status is exactly 200 and `''` otherwise; the
method returns `!!this.rtspUrl`.  First component: the `rtspUrl` field after the call;
second: the returned Boolean. -/
def resolveOnvifRtspConnection (rtspUrl0 : String) (resp : Except Unit RemoteResponse) :
    String × Bool :=
  match resp with
  | .error _ => (rtspUrl0, rtspUrl0 ≠ "")
  | .ok r =>
    let url := if r.status = 200 then r.payload else ""
    (url, url ≠ "")

/-- The four remote steps of `AmsGraph.startLvaGraph`. -/
inductive GraphStep where
  | resolveRtsp
  | setTopology
  | setInstance
  | activateInstance
deriving Repr, DecidableEq

/-- The environment of one `startLvaGraph` call: the outcome of each remote call it may
make (`.error` models a thrown transport exception; `.ok s` a returned status `s`). -/
structure StartEnv where
  resolveResp : Except Unit RemoteResponse
  setTopologyResp : Except Unit Nat
  setInstanceResp : Except Unit Nat
  activateResp : Except Unit Nat

/-- `AmsGraph.startLvaGraph` (amsGraph.ts lines 126-151): `result` starts `false`; each
step is guarded by `if (result === true)`; `setTopology`/`setInstance`/
`activateInstance` (lines 220-224, 233-252, 260-264) return `status === 200`; a thrown
exception is caught at the boundary, leaving `result` at its last assigned value.
Returns (overall result, `rtspUrl` field after the call, remote steps attempted). -/
def startLvaGraph (rtspUrl0 : String) (env : StartEnv) : Bool × String × List GraphStep :=
  let r1 := resolveOnvifRtspConnection rtspUrl0 env.resolveResp
  if r1.2 = false then (false, r1.1, [.resolveRtsp])
  else
    match env.setTopologyResp with
    | .error _ => (true, r1.1, [.resolveRtsp, .setTopology])
    | .ok s2 =>
      if s2 ≠ 200 then (false, r1.1, [.resolveRtsp, .setTopology])
      else
        match env.setInstanceResp with
        | .error _ => (true, r1.1, [.resolveRtsp, .setTopology, .setInstance])
        | .ok s3 =>
          if s3 ≠ 200 then (false, r1.1, [.resolveRtsp, .setTopology, .setInstance])
          else
            match env.activateResp with
            | .error _ =>
              (true, r1.1, [.resolveRtsp, .setTopology, .setInstance, .activateInstance])
            | .ok s4 =>
              (s4 = 200, r1.1, [.resolveRtsp, .setTopology, .setInstance, .activateInstance])

/-- The three remote steps of `AmsGraph.deleteLvaGraph`. -/
inductive DeleteStep where
  | deactivateInstance
  | deleteInstance
  | deleteTopology
deriving Repr, DecidableEq

/-- The environment of one `deleteLvaGraph` call. -/
structure DeleteEnv where
  deactivateResp : Except Unit Nat
  deleteInstanceResp : Except Unit Nat
  deleteTopologyResp : Except Unit Nat

/-- Whether a remote call returned (did not throw). -/
def remoteReturned : Except Unit Nat → Bool
  | .ok _ => true
  | .error _ => false

/-- `AmsGraph.deleteLvaGraph` (amsGraph.ts lines 170-187): the three awaits run in one
`try` block with their Boolean results discarded; `result` becomes `true` only after
all three return; a thrown exception jumps to the `catch`, skipping the remaining
steps.  Returns (overall result, remote steps attempted). -/
def deleteLvaGraph (env : DeleteEnv) : Bool × List DeleteStep :=
  match env.deactivateResp with
  | .error _ => (false, [.deactivateInstance])
  | .ok _ =>
    match env.deleteInstanceResp with
    | .error _ => (false, [.deactivateInstance, .deleteInstance])
    | .ok _ =>
      match env.deleteTopologyResp with
      | .error _ => (false, [.deactivateInstance, .deleteInstance, .deleteTopology])
      | .ok _ => (true, [.deactivateInstance, .deleteInstance, .deleteTopology])

/-! ## Inference window tracker (device.ts `inferenceTimer`, avaDevice.ts
`processAvaInferences`) -/

/-- The duration settings read by the timer, in seconds
(`wpInferenceTimeout`, `wpMaxVideoInferenceTime`). -/
structure TrackerConfig where
  wpInferenceTimeout : Int
  wpMaxVideoInferenceTime : Int
deriving Repr, DecidableEq

/-- The timer bookkeeping of `AvaCameraDevice` (device.ts lines 154-155, 169):
`lastInferenceTime`, `videoInferenceStartTime`, `createVideoLinkForInferenceTimeout`.
Instants are integers (seconds of UTC time). -/
structure TrackerState where
  lastInferenceTime : Int
  videoInferenceStartTime : Int
  createVideoLinkForInferenceTimeout : Bool
deriving Repr, DecidableEq

/-- One firing of `AvaCameraDevice.inferenceTimer` at instant `now` (device.ts lines
563-607).  The emitted video-link event covers the window
`[videoInferenceStartTime, now]`; `sendMeasurement` catches its own exceptions, so the
body is an exception-free state update.  Returns the new state and the emitted window,
if any. -/
def inferenceTimerStep (cfg : TrackerConfig) (s : TrackerState) (now : Int) :
    TrackerState × Option (Int × Int) :=
  let videoInferenceDuration := now - s.videoInferenceStartTime
  if now - s.lastInferenceTime ≥ cfg.wpInferenceTimeout then
    if s.createVideoLinkForInferenceTimeout then
      ({ s with createVideoLinkForInferenceTimeout := false, videoInferenceStartTime := now },
        some (s.videoInferenceStartTime, now))
    else
      ({ s with videoInferenceStartTime := now }, none)
  else
    if videoInferenceDuration ≥ cfg.wpMaxVideoInferenceTime then
      ({ s with createVideoLinkForInferenceTimeout := true, videoInferenceStartTime := now },
        some (s.videoInferenceStartTime, now))
    else
      ({ s with createVideoLinkForInferenceTimeout := true }, none)

/-- An event seen by the tracker: a 1-second timer tick at instant `t`, or an inference
arrival at instant `t` (avaDevice.ts line 73 sets `lastInferenceTime = moment.utc()`
from the inference-ingestion path). -/
inductive TrackerEvent where
  | tick (t : Int)
  | inference (t : Int)
deriving Repr, DecidableEq

/-- Run the tracker over a sequence of events, collecting the emitted windows in
order. -/
def runTracker (cfg : TrackerConfig) (s : TrackerState) :
    List TrackerEvent → TrackerState × List (Int × Int)
  | [] => (s, [])
  | .tick t :: rest =>
    let r := inferenceTimerStep cfg s t
    let r2 := runTracker cfg r.1 rest
    (r2.1, r.2.toList ++ r2.2)
  | .inference t :: rest => runTracker cfg { s with lastInferenceTime := t } rest

/-- The instants of the timer ticks of an event sequence, in order. -/
def tickTimes : List TrackerEvent → List Int
  | [] => []
  | .tick t :: rest => t :: tickTimes rest
  | .inference _ :: rest => tickTimes rest

/-! ## Start-processing command (device.ts `startAvaProcessingDirectMethod`) -/

/-- The observable processing state of a camera session: whether an inference timer
interval is currently set, and how many `setInterval` timers have been started and not
cleared (device.ts line 829 starts one per successful start command;
`stopAvaProcessingInternal` clears a single interval handle). -/
structure ProcessingState where
  intervalActive : Bool
  intervalCount : Nat
deriving Repr, DecidableEq

/-- A direct-method command response body (device.ts lines 789-793). -/
structure CommandResponseBody where
  statusCode : Nat
  message : String
deriving Repr, DecidableEq

/-- Result of one `startAvaProcessingDirectMethod` invocation: the response body, the
new processing state, whether `startAvaProcessingInternal` (and with it the
`avaPipeline.startAvaPipeline` remote start sequence) was invoked, and the
`stCameraState` value sent by the internal call (`some true` = Active). -/
structure StartCommandResult where
  response : CommandResponseBody
  state : ProcessingState
  startSequenceInvoked : Bool
  cameraStateSent : Option Bool
deriving Repr, DecidableEq

/-- `AvaCameraDevice.startAvaProcessingDirectMethod` (device.ts lines 784-842) together
with `startAvaProcessingInternal` (lines 527-554): missing params answer 400 without
starting anything; otherwise the internal start runs unconditionally — there is no
check of the current processing state — sending `stCameraState` Active/Inactive for the
pipeline-start outcome `startResult`; on success the inference bookkeeping is reset and
one more `setInterval` timer is started. -/
def startAvaProcessingDirectMethod (st : ProcessingState)
    (pipelineInstanceName mediaProfileToken : Option String) (startResult : Bool) :
    StartCommandResult :=
  let nameTruthy := (pipelineInstanceName.getD "") ≠ ""
  let tokenTruthy := (mediaProfileToken.getD "") ≠ ""
  if ¬(nameTruthy ∧ tokenTruthy) then
    { response := ⟨400, "Missing required parameters for command cmStartAvaProcessing"⟩
      state := st
      startSequenceInvoked := false
      cameraStateSent := none }
  else if startResult then
    { response := ⟨200, "AVA edge processing started"⟩
      state := { intervalActive := true, intervalCount := st.intervalCount + 1 }
      startSequenceInvoked := true
      cameraStateSent := some true }
  else
    { response := ⟨500, "AVA edge processing failed to start"⟩
      state := st
      startSequenceInvoked := true
      cameraStateSent := some false }

/-! ## Gateway registry (cameraGateway.ts) -/

/-- The `amsInferenceDeviceMap` (cameraGateway.ts line 236) modelled as an association
list with `Map` semantics; the `Nat` identifies the stored session object. -/
def Registry : Type := List (String × Nat)

/-- `Map.set`: replace the binding for an existing key, otherwise append. -/
def regSet : Registry → String → Nat → Registry
  | [], k, v => [(k, v)]
  | (k0, v0) :: rest, k, v =>
    if k0 = k then (k, v) :: rest else (k0, v0) :: regSet rest k v

/-- `Map.get`. -/
def regGet (m : Registry) (k : String) : Option Nat :=
  List.lookup k m

/-- `Map.delete`. -/
def regDelete (m : Registry) (k : String) : Registry :=
  m.filter (fun p => p.1 ≠ k)

/-- The keys of a registry. -/
def regKeys (m : Registry) : List String :=
  m.map Prod.fst

/-- The outcome of `createAndProvisionAmsInferenceDevice` (cameraGateway.ts lines
690-765): DPS provisioning status/message and the client connection status reported by
`connectDeviceClient`, plus the identity of the session object constructed for the
device (fully determined by this environment, since all failures inside are caught and
reported through these fields). -/
structure ProvisionOutcome where
  dpsOk : Bool
  dpsMessage : String
  connOk : Bool
  deviceHandle : Nat
deriving Repr, DecidableEq

/-- The provisioning result record (`IProvisionResult`, connection-string and
device-object fields omitted). -/
structure CreateResult where
  dpsProvisionStatus : Bool
  dpsProvisionMessage : String
  clientConnectionStatus : Bool
deriving Repr, DecidableEq

/-- `CameraGatewayService.createAmsInferenceDevice` (cameraGateway.ts lines 634-688):
reject a falsy `cameraId` or missing management settings (`configOk`); otherwise run
`createAndProvisionAmsInferenceDevice` and, exactly when both `dpsProvisionStatus` and
`clientConnectionStatus` are true, `Map.set` the session into `amsInferenceDeviceMap`.
No lookup of the map precedes the `set`.  Returns the new registry and the result. -/
def createAmsInferenceDevice (reg : Registry) (cameraId : String) (configOk : Bool)
    (outcome : ProvisionOutcome) : Registry × CreateResult :=
  if cameraId = "" then
    (reg, ⟨false, "Missing device configuration - skipping DPS provisioning", false⟩)
  else if ¬configOk then
    (reg, ⟨false, "Missing camera management settings (ScopeId)", false⟩)
  else
    let result : CreateResult := ⟨outcome.dpsOk, outcome.dpsMessage, outcome.connOk⟩
    if outcome.dpsOk ∧ outcome.connOk then
      (regSet reg cameraId outcome.deviceHandle, result)
    else
      (reg, result)

/-- `CameraGatewayService.deprovisionAmsInferenceDevice` (cameraGateway.ts lines
767-808): if the camera is in the map, delete the camera device (best-effort, catches
internally) and remove it from the map; then request IoT Central identity deletion —
`apiDeleteOk` is the outcome of that request — and report `true` only when that request
succeeded.  Returns (result, new registry). -/
def deprovisionAmsInferenceDevice (reg : Registry) (cameraId : String)
    (apiDeleteOk : Bool) : Bool × Registry :=
  let reg1 := if (regGet reg cameraId).isSome then regDelete reg cameraId else reg
  (apiDeleteOk, reg1)

/-- The routed device operations (cameraGateway.ts line 33). -/
inductive DeviceOperation where
  | deleteCamera
  | sendEvent
  | sendInferences
deriving Repr, DecidableEq

/-- An `IDeviceOperationResult` plus the registry after the operation. -/
structure OperationOutcome where
  status : Bool
  message : String
  registry : Registry

/-- `CameraGatewayService.amsInferenceDeviceOperation` (cameraGateway.ts lines
814-871): three guards (falsy `cameraId`, unknown device, falsy `operationInfo`) each
return `{status: false}`; then the operation is dispatched with its own result
discarded (`DELETE_CAMERA` awaits `deprovisionAmsInferenceDevice` whose Boolean is
dropped; the send operations catch internally), and `{status: true, message:
'Success'}` is returned unconditionally. -/
def amsInferenceDeviceOperation (reg : Registry) (op : DeviceOperation)
    (cameraId : String) (operationInfoPresent : Bool) (apiDeleteOk : Bool) :
    OperationOutcome :=
  if cameraId = "" then
    ⟨false, "Missing cameraId", reg⟩
  else
    match regGet reg cameraId with
    | none => ⟨false, "No device exists with cameraId: " ++ cameraId, reg⟩
    | some _ =>
      if ¬operationInfoPresent then
        ⟨false, "Missing operationInfo data", reg⟩
      else
        let reg1 :=
          match op with
          | .deleteCamera => (deprovisionAmsInferenceDevice reg cameraId apiDeleteOk).2
          | .sendEvent => reg
          | .sendInferences => reg
        ⟨true, "Success", reg1⟩

/-! ## Health-check loop (cameraGateway.ts `getHealth`) -/

/-- `HealthState.Good` (health.ts is not part of the sources; the numeric encoding
Good = 2, Warning = 1, Critical = 0 is fixed by the source's uses `healthState <
HealthState.Good` for "unhealthy" and `HealthState.Critical` for error states). -/
def HealthStateGood : Nat := 2

/-- `HealthState.Critical`. -/
def HealthStateCritical : Nat := 0

/-- The health bookkeeping of `CameraGatewayService` (cameraGateway.ts lines 206-208):
`healthState`, `healthCheckFailStreak`, and the configured `healthCheckRetries`. -/
structure GatewayHealthState where
  healthState : Nat
  failStreak : Nat
  retries : Nat
deriving Repr, DecidableEq

/-- The environment of one `getHealth` call: the sampled free memory (KB) and whether
the telemetry send inside the `try` block throws. -/
structure HealthCheckEnv where
  freeMemory : Nat
  sendThrows : Bool
deriving Repr, DecidableEq

/-- `CameraGatewayService.getHealth` (cameraGateway.ts lines 454-500): a local copy of
`healthState` is degraded to Critical when the free-memory sample is 0; a throw inside
the `try` makes the stored state Critical via the `catch`; then, when the stored state
is below Good, `++this.healthCheckFailStreak` runs and a restart is triggered once the
streak reaches `healthCheckRetries` (`restartModule` ends the process).  Returns (new
state, restart triggered, returned health value). -/
def getHealthStep (st : GatewayHealthState) (env : HealthCheckEnv) :
    GatewayHealthState × Bool × Nat :=
  let h1 :=
    if st.healthState = HealthStateGood then
      if env.sendThrows then HealthStateCritical
      else if env.freeMemory = 0 then HealthStateCritical
      else st.healthState
    else st.healthState
  if h1 < HealthStateGood then
    let streak := st.failStreak + 1
    ({ st with healthState := h1, failStreak := streak }, streak ≥ st.retries, h1)
  else
    ({ st with healthState := h1 }, false, h1)

/-- The reachable states of the health loop.  `init` is `onModuleReady` (cameraGateway.ts
lines 402-403): streak 0, health Good or Critical depending on the module client, with
a positive configured retry count.  `check` is a `getHealth` call that did not trigger
the restart (`restartModule` calls `process.exit`, so a triggering call has no
successor).  `clientError` is `onModuleClientError` (lines 295-299). -/
inductive HealthReachable : GatewayHealthState → Prop where
  | init : ∀ retries h0, 1 ≤ retries →
      (h0 = HealthStateGood ∨ h0 = HealthStateCritical) →
      HealthReachable ⟨h0, 0, retries⟩
  | check : ∀ st env, HealthReachable st → (getHealthStep st env).2.1 = false →
      HealthReachable (getHealthStep st env).1
  | clientError : ∀ st, HealthReachable st →
      HealthReachable { st with healthState := HealthStateCritical }

/-! ## Connect sequence and the deferredStart gate (device.ts `connectDeviceClient`,
`connectDeviceClientInternal`; avaDevice.ts `onHandleDeviceProperties`) -/

/-- Observable actions of one camera session, appended to a chronological log. -/
inductive SessionAction where
  | deltaCompleted
  | pipelineStartCall
  | deviceReady
  | connectedTelemetry
deriving Repr, DecidableEq

/-- The session's connection/gate state.  `handlersRegistered` becomes true when
`connectDeviceClientInternal` has subscribed the twin delta handler and registered the
direct-method handlers (device.ts lines 664-670); `gateResolved` is the state of the
one-shot `deferredStart` promise; `firstDeltaDone` records that a desired-property
callback has completed. -/
structure SessionTraceState where
  handlersRegistered : Bool
  gateResolved : Bool
  firstDeltaDone : Bool
  log : List SessionAction
deriving Repr, DecidableEq

/-- Events of the connect sequence.  `connectInternal ok` is the completion of
`connectDeviceClientInternal` with `clientConnectionStatus = ok`.  `deliverDelta` is
the twin firing `properties.desired`: `AvaDevice.onHandleDeviceProperties`
(avaDevice.ts lines 89-94) runs the base handler and then `deferredStart.resolve()`.
`deliverStartCommand` is a `cmStartAvaProcessing` direct-method invocation with valid
parameters whose internal start succeeds, performing the remote pipeline-start
sequence (device.ts lines 784-842 contain no wait on `deferredStart`).
`finishConnect` is the code after `await this.deferredStart.promise` in
`connectDeviceClient` (device.ts lines 197-204): `deviceReady()` then the Connected
state telemetry. -/
inductive SessionEvent where
  | connectInternal (ok : Bool)
  | deliverDelta
  | deliverStartCommand
  | finishConnect
deriving Repr, DecidableEq

/-- The initial session state (fields of a freshly constructed `AvaCameraDevice`). -/
def initSessionTrace : SessionTraceState :=
  { handlersRegistered := false, gateResolved := false, firstDeltaDone := false, log := [] }

/-- One step of the session trace system; `none` when the event is not enabled (a
handler cannot fire before it is registered, and the code after the gate await cannot
run before the promise resolves). -/
def sessionStep (st : SessionTraceState) : SessionEvent → Option SessionTraceState
  | .connectInternal ok =>
    if st.handlersRegistered then none
    else if ok then some { st with handlersRegistered := true }
    else some st
  | .deliverDelta =>
    if st.handlersRegistered then
      some { st with firstDeltaDone := true, gateResolved := true,
                     log := st.log ++ [.deltaCompleted] }
    else none
  | .deliverStartCommand =>
    if st.handlersRegistered then
      some { st with log := st.log ++ [.pipelineStartCall] }
    else none
  | .finishConnect =>
    if st.gateResolved then
      some { st with log := st.log ++ [.deviceReady, .connectedTelemetry] }
    else none

/-- Run a sequence of events from a state; a disabled event invalidates the trace. -/
def runSession (st : SessionTraceState) : List SessionEvent → Option SessionTraceState
  | [] => some st
  | e :: rest =>
    match sessionStep st e with
    | none => none
    | some st1 => runSession st1 rest

/-- Scanning a log from the start: no `deviceReady` or `connectedTelemetry` action
occurs before the first completed delta callback. -/
def readyOnlyAfterDelta : List SessionAction → Bool
  | [] => true
  | .deltaCompleted :: _ => true
  | .deviceReady :: _ => false
  | .connectedTelemetry :: _ => false
  | .pipelineStartCall :: rest => readyOnlyAfterDelta rest

/-- Scanning a log from the start: no `pipelineStartCall` action occurs before the
first completed delta callback (the property claimed of the deferredStart barrier). -/
def noStartBeforeDelta : List SessionAction → Bool
  | [] => true
  | .deltaCompleted :: _ => true
  | .pipelineStartCall :: _ => false
  | .deviceReady :: rest => noStartBeforeDelta rest
  | .connectedTelemetry :: rest => noStartBeforeDelta rest

/-! ## Theorems -/

/-- When the `switch` of `sendAvaEvent` selects no telemetry field, `eventValue` is
still at its initializer `cameraId`. -/
theorem avaEventSwitch_unmatched (avaEvent : String) (messageJson : JSVal)
    (cameraId : String)
    (h : (avaEventSwitch avaEvent messageJson cameraId).1 = none) :
    avaEventSwitch avaEvent messageJson cameraId = (none, JSVal.str cameraId) := by
  unfold avaEventSwitch at h ⊢
  by_cases h1 : avaEvent = "Microsoft.VideoAnalyzer.Operational.RecordingStarted"
  · rw [if_pos h1] at h; exact absurd h (by simp)
  rw [if_neg h1] at h ⊢
  by_cases h2 : avaEvent = "Microsoft.VideoAnalyzer.Operational.RecordingStopped"
  · rw [if_pos h2] at h; exact absurd h (by simp)
  rw [if_neg h2] at h ⊢
  by_cases h3 : avaEvent = "Microsoft.VideoAnalyzer.Operational.RecordingAvailable"
  · rw [if_pos h3] at h; exact absurd h (by simp)
  rw [if_neg h3] at h ⊢
  by_cases h4 : avaEvent = "Microsoft.VideoAnalyzer.Diagnostics.RuntimeError"
  · rw [if_pos h4] at h; exact absurd h (by simp)
  rw [if_neg h4] at h ⊢
  by_cases h5 : avaEvent = "Microsoft.VideoAnalyzer.Diagnostics.AuthenticationError"
  · rw [if_pos h5] at h; exact absurd h (by simp)
  rw [if_neg h5] at h ⊢
  by_cases h6 : avaEvent = "Microsoft.VideoAnalyzer.Diagnostics.AuthorizationError"
  · rw [if_pos h6] at h; exact absurd h (by simp)
  rw [if_neg h6] at h ⊢
  by_cases h7 : avaEvent = "Microsoft.VideoAnalyzer.Diagnostics.DataDropped"
  · rw [if_pos h7] at h; exact absurd h (by simp)
  rw [if_neg h7] at h ⊢
  by_cases h8 : avaEvent = "Microsoft.VideoAnalyzer.Diagnostics.MediaFormatError"
  · rw [if_pos h8] at h; exact absurd h (by simp)
  rw [if_neg h8] at h ⊢
  by_cases h9 : avaEvent = "Microsoft.VideoAnalyzer.Diagnostics.MediaSessionEstablished"
  · rw [if_pos h9] at h; exact absurd h (by simp)
  rw [if_neg h9] at h ⊢
  by_cases h10 : avaEvent = "Microsoft.VideoAnalyzer.Diagnostics.NetworkError"
  · rw [if_pos h10] at h; exact absurd h (by simp)
  rw [if_neg h10] at h ⊢
  by_cases h11 : avaEvent = "Microsoft.VideoAnalyzer.Diagnostics.ProtocolError"
  · rw [if_pos h11] at h; exact absurd h (by simp)
  rw [if_neg h11] at h ⊢
  by_cases h12 : avaEvent = "Microsoft.VideoAnalyzer.Diagnostics.StorageError"
  · rw [if_pos h12] at h; exact absurd h (by simp)
  rw [if_neg h12]

/-- Claim C9: for every non-empty event-type string that is not one of the recognized
upstream event names, `sendAvaEvent` still sends a telemetry measurement whose single
key is the undefined (unmatched) event field — the computed key becomes the literal
string `"undefined"` and the value is the camera id — because the send guard tests only
that the event string is truthy; only an empty event string skips the send. -/
theorem sendAvaEvent_unmatched_still_sends :
    ∀ (avaEvent : String) (messageJson : JSVal) (cameraId : String),
      (avaEvent ≠ "" → (avaEventSwitch avaEvent messageJson cameraId).1 = none →
        sendAvaEvent avaEvent messageJson cameraId =
          some [("undefined", JSVal.str cameraId)]) ∧
      sendAvaEvent "" messageJson cameraId = none := by
  intro ev m c
  constructor
  · intro hne hfield
    have h := avaEventSwitch_unmatched ev m c hfield
    simp [sendAvaEvent, hne, h]
  · simp [sendAvaEvent]

/-- Witness for `sendAvaEvent_unmatched_still_sends` at the concrete unmatched event
string `"Microsoft.VideoAnalyzer.Diagnostics.Unknown"`. -/
theorem sendAvaEvent_unmatched_still_sends_witness :
    sendAvaEvent "Microsoft.VideoAnalyzer.Diagnostics.Unknown" (.obj []) "camera001" =
      some [("undefined", JSVal.str "camera001")] :=
  (sendAvaEvent_unmatched_still_sends "Microsoft.VideoAnalyzer.Diagnostics.Unknown"
    (.obj []) "camera001").1 (by decide) (by decide)

/-- Claim C10: for every routed device operation, whenever the cameraId is present, a
session exists for it, and operationInfo is present, the returned operation result is
`{status: true, message: 'Success'}` regardless of the dispatched operation's own
outcome (e.g. a deprovision that reports `false` is discarded). -/
theorem amsInferenceDeviceOperation_reports_success :
    ∀ (reg : Registry) (op : DeviceOperation) (cameraId : String)
      (infoPresent apiDeleteOk : Bool) (d : Nat),
      cameraId ≠ "" → regGet reg cameraId = some d → infoPresent = true →
      (amsInferenceDeviceOperation reg op cameraId infoPresent apiDeleteOk).status = true ∧
      (amsInferenceDeviceOperation reg op cameraId infoPresent apiDeleteOk).message =
        "Success" := by
  intro reg op id info api d hne hget hinfo
  simp [amsInferenceDeviceOperation, hne, hget, hinfo]

/-- Witness for `amsInferenceDeviceOperation_reports_success`: a DELETE_CAMERA
operation whose identity deletion fails (`apiDeleteOk = false`, so
`deprovisionAmsInferenceDevice` reports `false`) is still reported as Success. -/
theorem amsInferenceDeviceOperation_reports_success_witness :
    (amsInferenceDeviceOperation [("cam1", 1)] .deleteCamera "cam1" true false).status = true ∧
    (amsInferenceDeviceOperation [("cam1", 1)] .deleteCamera "cam1" true false).message =
      "Success" :=
  amsInferenceDeviceOperation_reports_success [("cam1", 1)] .deleteCamera "cam1" true false 1
    (by decide) rfl rfl

/-- Counterexample to claim C2: from a session already processing (one live inference
interval from a previous successful start), a second `cmStartAvaProcessing` invocation
with valid parameters and a successful pipeline start is not refused — it invokes the
pipeline start sequence again, answers 200 "AVA edge processing started", and starts a
second interval timer. -/
theorem startAvaProcessing_second_start_accepted :
    startAvaProcessingDirectMethod ⟨true, 1⟩ (some "objectPipelineInstance")
        (some "profileToken1") true =
      { response := ⟨200, "AVA edge processing started"⟩
        state := ⟨true, 2⟩
        startSequenceInvoked := true
        cameraStateSent := some true } := rfl

/-- Claim C2 amended: `startAvaProcessingDirectMethod` has no already-active guard: its
behavior is independent of the current processing state.  With both required parameters
present it always invokes the pipeline start sequence; on pipeline-start success it
answers 200 and adds one more live interval timer (even if one is already active), and
on failure it answers 500. -/
theorem startAvaProcessing_no_active_guard :
    ∀ (st : ProcessingState) (nm tok : Option String) (startResult : Bool),
      (nm.getD "") ≠ "" → (tok.getD "") ≠ "" →
      (startAvaProcessingDirectMethod st nm tok startResult).startSequenceInvoked = true ∧
      (startAvaProcessingDirectMethod st nm tok startResult).response.statusCode =
        (if startResult then 200 else 500) ∧
      (startResult = true →
        (startAvaProcessingDirectMethod st nm tok startResult).state.intervalCount =
            st.intervalCount + 1 ∧
        (startAvaProcessingDirectMethod st nm tok startResult).state.intervalActive = true) := by
  intro st nm tok r hn ht
  cases r <;> simp [startAvaProcessingDirectMethod, hn, ht]

/-- Witness for `startAvaProcessing_no_active_guard` at an already-active state. -/
theorem startAvaProcessing_no_active_guard_witness :
    (startAvaProcessingDirectMethod ⟨true, 1⟩ (some "objectPipelineInstance")
        (some "profileToken1") true).startSequenceInvoked = true ∧
    (startAvaProcessingDirectMethod ⟨true, 1⟩ (some "objectPipelineInstance")
        (some "profileToken1") true).response.statusCode = (if true then 200 else 500) ∧
    (true = true →
      (startAvaProcessingDirectMethod ⟨true, 1⟩ (some "objectPipelineInstance")
          (some "profileToken1") true).state.intervalCount = 2 ∧
      (startAvaProcessingDirectMethod ⟨true, 1⟩ (some "objectPipelineInstance")
          (some "profileToken1") true).state.intervalActive = true) :=
  startAvaProcessing_no_active_guard ⟨true, 1⟩ (some "objectPipelineInstance")
    (some "profileToken1") true (by decide) (by decide)

/-- Counterexample to claim C5: when `deactivateInstance` throws, `deleteLvaGraph` does
not attempt the other two sub-steps — `deleteInstance` and `deleteTopology` are never
invoked — and returns `false`. -/
theorem deleteLvaGraph_throw_skips_rest :
    (deleteLvaGraph ⟨.error (), .ok 200, .ok 200⟩).1 = false ∧
    (deleteLvaGraph ⟨.error (), .ok 200, .ok 200⟩).2 = [DeleteStep.deactivateInstance] ∧
    DeleteStep.deleteInstance ∉ (deleteLvaGraph ⟨.error (), .ok 200, .ok 200⟩).2 ∧
    DeleteStep.deleteTopology ∉ (deleteLvaGraph ⟨.error (), .ok 200, .ok 200⟩).2 := by
  refine ⟨rfl, rfl, ?_, ?_⟩ <;> decide

/-- Claim C5 amended: `deleteLvaGraph` attempts all three sub-steps whenever no
sub-step throws — their returned statuses are ignored, so a sub-step that fails by
returning a non-success status does not stop the sequence — but a sub-step that throws
aborts the remaining sub-steps; the call returns `true` exactly when all three
sub-steps returned without throwing. -/
theorem deleteLvaGraph_amended :
    ∀ env : DeleteEnv,
      ((deleteLvaGraph env).1 = true ↔
        remoteReturned env.deactivateResp = true ∧
          remoteReturned env.deleteInstanceResp = true ∧
          remoteReturned env.deleteTopologyResp = true) ∧
      (remoteReturned env.deactivateResp = true → remoteReturned env.deleteInstanceResp = true →
        remoteReturned env.deleteTopologyResp = true →
        (deleteLvaGraph env).2 =
          [DeleteStep.deactivateInstance, DeleteStep.deleteInstance, DeleteStep.deleteTopology]) ∧
      (remoteReturned env.deactivateResp = false →
        (deleteLvaGraph env).2 = [DeleteStep.deactivateInstance]) ∧
      (remoteReturned env.deleteInstanceResp = false →
        DeleteStep.deleteTopology ∉ (deleteLvaGraph env).2) := by
  intro env
  obtain ⟨d1, d2, d3⟩ := env
  cases d1 <;> cases d2 <;> cases d3 <;> simp [deleteLvaGraph, remoteReturned]

/-- Witness for `deleteLvaGraph_amended`: all three sub-steps run and the call returns
`true` even when every sub-step reports a non-2xx status. -/
theorem deleteLvaGraph_amended_witness :
    (deleteLvaGraph ⟨.ok 500, .ok 404, .ok 503⟩).2 =
      [DeleteStep.deactivateInstance, DeleteStep.deleteInstance, DeleteStep.deleteTopology] :=
  (deleteLvaGraph_amended ⟨.ok 500, .ok 404, .ok 503⟩).2.1 rfl rfl rfl

/-- Membership in the keys after a `Map.set`. -/
theorem regKeys_regSet_mem (m : Registry) (k : String) (v : Nat) (x : String) :
    x ∈ regKeys (regSet m k v) ↔ x ∈ regKeys m ∨ x = k := by
  induction m with
  | nil => simp [regSet, regKeys]
  | cons p rest ih =>
    obtain ⟨k0, v0⟩ := p
    simp only [regKeys] at ih ⊢
    by_cases hk : k0 = k
    · subst hk
      have hset : regSet ((k0, v0) :: rest) k0 v = (k0, v) :: rest := by
        simp [regSet]
      rw [hset]
      simp only [List.map_cons, List.mem_cons]
      tauto
    · have hset : regSet ((k0, v0) :: rest) k v = (k0, v0) :: regSet rest k v := by
        simp [regSet, hk]
      rw [hset]
      simp only [List.map_cons, List.mem_cons]
      rw [ih]
      tauto

/-- `Map.set` preserves key uniqueness. -/
theorem regKeys_regSet_nodup (m : Registry) (k : String) (v : Nat) :
    (regKeys m).Nodup → (regKeys (regSet m k v)).Nodup := by
  induction m with
  | nil => intro h; simp [regSet, regKeys]
  | cons p rest ih =>
    intro h
    obtain ⟨k0, v0⟩ := p
    simp only [regKeys, List.map_cons, List.nodup_cons] at h
    by_cases hk : k0 = k
    · subst hk
      have hset : regSet ((k0, v0) :: rest) k0 v = (k0, v) :: rest := by
        simp [regSet]
      rw [hset]
      simp only [regKeys, List.map_cons, List.nodup_cons]
      exact h
    · have hset : regSet ((k0, v0) :: rest) k v = (k0, v0) :: regSet rest k v := by
        simp [regSet, hk]
      rw [hset]
      simp only [regKeys, List.map_cons, List.nodup_cons]
      refine ⟨?_, ih h.2⟩
      intro hmem
      have hcases : k0 ∈ regKeys rest ∨ k0 = k :=
        (regKeys_regSet_mem rest k v k0).1 hmem
      rcases hcases with hm | he
      · exact h.1 hm
      · exact hk he

/-- Counterexample to claim C6: a create-device request for a deviceId already mapped
to a live session is not rejected — with successful provisioning and connection it is
reported as fully successful and the existing registry entry is overwritten by the new
session. -/
theorem createDevice_existing_id_not_rejected :
    createAmsInferenceDevice [("cam1", 1)] "cam1" true
        { dpsOk := true, dpsMessage := "provisioned", connOk := true, deviceHandle := 2 } =
      ([("cam1", 2)],
        { dpsProvisionStatus := true, dpsProvisionMessage := "provisioned",
          clientConnectionStatus := true }) := rfl

/-- Claim C6 amended: `createAmsInferenceDevice` performs no duplicate check — a
request for an already-mapped deviceId is processed and, on success, overwrites the
existing entry.  The other two parts of the claim hold: the session is inserted
exactly when both the provisioning status and the client-connection status are true
(any failure leaves the registry unchanged — no partial registration), and the
registry always keeps at most one session per deviceId. -/
theorem createDevice_insertion_amended :
    ∀ (reg : Registry) (cameraId : String) (configOk : Bool) (outcome : ProvisionOutcome),
      (¬((createAmsInferenceDevice reg cameraId configOk outcome).2.dpsProvisionStatus = true ∧
          (createAmsInferenceDevice reg cameraId configOk outcome).2.clientConnectionStatus = true) →
        (createAmsInferenceDevice reg cameraId configOk outcome).1 = reg) ∧
      (cameraId ≠ "" → configOk = true → outcome.dpsOk = true → outcome.connOk = true →
        (createAmsInferenceDevice reg cameraId configOk outcome).1 =
            regSet reg cameraId outcome.deviceHandle ∧
          (createAmsInferenceDevice reg cameraId configOk outcome).2.clientConnectionStatus = true) ∧
      ((regKeys reg).Nodup →
        (regKeys (createAmsInferenceDevice reg cameraId configOk outcome).1).Nodup) := by
  intro reg id cfg outcome
  refine ⟨?_, ?_, ?_⟩
  · intro hfail
    by_cases hid : id = ""
    · simp [createAmsInferenceDevice, hid]
    · by_cases hcfg : cfg = true
      · by_cases hok : outcome.dpsOk = true ∧ outcome.connOk = true
        · exact absurd (by simp [createAmsInferenceDevice, hid, hcfg, hok]) hfail
        · simp [createAmsInferenceDevice, hid, hcfg, hok]
      · simp [createAmsInferenceDevice, hid, hcfg]
  · intro hid hcfg hdps hconn
    simp [createAmsInferenceDevice, hid, hcfg, hdps, hconn]
  · intro hnodup
    by_cases hid : id = ""
    · simpa [createAmsInferenceDevice, hid] using hnodup
    · by_cases hcfg : cfg = true
      · by_cases hok : outcome.dpsOk = true ∧ outcome.connOk = true
        · simpa [createAmsInferenceDevice, hid, hcfg, hok] using
            regKeys_regSet_nodup reg id outcome.deviceHandle hnodup
        · simpa [createAmsInferenceDevice, hid, hcfg, hok] using hnodup
      · simpa [createAmsInferenceDevice, hid, hcfg] using hnodup

/-- Witness for `createDevice_insertion_amended`: a failed client connection does not
insert the device, and a successful create inserts it. -/
theorem createDevice_insertion_amended_witness :
    (createAmsInferenceDevice [] "cam1" true
        { dpsOk := true, dpsMessage := "provisioned", connOk := true, deviceHandle := 7 }).1 =
      regSet [] "cam1" 7 ∧
    (createAmsInferenceDevice [] "cam2" true
        { dpsOk := true, dpsMessage := "provisioned", connOk := false, deviceHandle := 8 }).1 = [] :=
  ⟨((createDevice_insertion_amended [] "cam1" true
      { dpsOk := true, dpsMessage := "provisioned", connOk := true, deviceHandle := 7 }).2.1
      (by decide) rfl rfl rfl).1,
   (createDevice_insertion_amended [] "cam2" true
      { dpsOk := true, dpsMessage := "provisioned", connOk := false, deviceHandle := 8 }).1
      (by decide)⟩

/-- Claim C7: `startLvaGraph` is strictly sequential and short-circuiting.  (1) If
`setTopology` returns a non-2xx status, `setInstance` and `activateInstance` are never
invoked and the overall result is `false`.  (2) Each step runs only if every preceding
step returned success: `setTopology` runs only if the stream address resolved;
`setInstance` only if additionally `setTopology` returned a 2xx status;
`activateInstance` only if additionally `setInstance` returned a 2xx status.  (3) Any
executed step that returns a non-2xx status makes the overall result `false`. -/
theorem startLvaGraph_short_circuit :
    ∀ (rtspUrl0 : String) (env : StartEnv),
      (∀ s, env.setTopologyResp = Except.ok s → ¬is2xx s →
        GraphStep.setInstance ∉ (startLvaGraph rtspUrl0 env).2.2 ∧
        GraphStep.activateInstance ∉ (startLvaGraph rtspUrl0 env).2.2 ∧
        (startLvaGraph rtspUrl0 env).1 = false) ∧
      (GraphStep.setTopology ∈ (startLvaGraph rtspUrl0 env).2.2 →
        (resolveOnvifRtspConnection rtspUrl0 env.resolveResp).2 = true) ∧
      (GraphStep.setInstance ∈ (startLvaGraph rtspUrl0 env).2.2 →
        (resolveOnvifRtspConnection rtspUrl0 env.resolveResp).2 = true ∧
        ∃ s, env.setTopologyResp = Except.ok s ∧ is2xx s) ∧
      (GraphStep.activateInstance ∈ (startLvaGraph rtspUrl0 env).2.2 →
        (∃ s, env.setTopologyResp = Except.ok s ∧ is2xx s) ∧
        ∃ s, env.setInstanceResp = Except.ok s ∧ is2xx s) ∧
      ((resolveOnvifRtspConnection rtspUrl0 env.resolveResp).2 = false →
        (startLvaGraph rtspUrl0 env).1 = false) ∧
      (∀ s, GraphStep.setInstance ∈ (startLvaGraph rtspUrl0 env).2.2 →
        env.setInstanceResp = Except.ok s → ¬is2xx s →
        (startLvaGraph rtspUrl0 env).1 = false) ∧
      (∀ s, GraphStep.activateInstance ∈ (startLvaGraph rtspUrl0 env).2.2 →
        env.activateResp = Except.ok s → ¬is2xx s →
        (startLvaGraph rtspUrl0 env).1 = false) := by
  intro url env
  obtain ⟨rr, tr, ir, ar⟩ := env
  simp only [startLvaGraph]
  rcases hb : (resolveOnvifRtspConnection url rr).2 with _ | _
  · simp only [hb]
    refine ⟨?_, ?_, ?_, ?_, ?_, ?_, ?_⟩ <;> simp
  · simp only [hb]
    rcases tr with e2 | s2
    · refine ⟨?_, ?_, ?_, ?_, ?_, ?_, ?_⟩ <;> simp
    · by_cases hs2 : s2 = 200
      · subst hs2
        simp only [if_neg (by omega : ¬(200 : Nat) ≠ 200)]
        rcases ir with e3 | s3
        · refine ⟨?_, ?_, ?_, ?_, ?_, ?_, ?_⟩ <;>
            simp [is2xx] <;> omega
        · by_cases hs3 : s3 = 200
          · subst hs3
            simp only [if_neg (by omega : ¬(200 : Nat) ≠ 200)]
            rcases ar with e4 | s4
            · refine ⟨?_, ?_, ?_, ?_, ?_, ?_, ?_⟩ <;>
                simp [is2xx] <;> omega
            · refine ⟨?_, ?_, ?_, ?_, ?_, ?_, ?_⟩ <;>
                simp [is2xx] <;> intros <;> omega
          · simp only [if_pos hs3]
            refine ⟨?_, ?_, ?_, ?_, ?_, ?_, ?_⟩ <;>
              simp [is2xx] <;> intros <;> omega
      · simp only [if_pos hs2]
        refine ⟨?_, ?_, ?_, ?_, ?_, ?_, ?_⟩ <;>
          simp [is2xx] <;> intros <;> omega

/-- Witness for `startLvaGraph_short_circuit`: with a resolved stream address and
`setTopology` answering 502, neither `setInstance` nor `activateInstance` is attempted
and the start reports `false`. -/
theorem startLvaGraph_short_circuit_witness :
    GraphStep.setInstance ∉
      (startLvaGraph "" ⟨.ok ⟨200, "rtsp://cam/stream"⟩, .ok 502, .ok 200, .ok 200⟩).2.2 ∧
    GraphStep.activateInstance ∉
      (startLvaGraph "" ⟨.ok ⟨200, "rtsp://cam/stream"⟩, .ok 502, .ok 200, .ok 200⟩).2.2 ∧
    (startLvaGraph "" ⟨.ok ⟨200, "rtsp://cam/stream"⟩, .ok 502, .ok 200, .ok 200⟩).1 = false :=
  (startLvaGraph_short_circuit "" ⟨.ok ⟨200, "rtsp://cam/stream"⟩, .ok 502, .ok 200, .ok 200⟩).1
    502 rfl (by simp [is2xx])

/-- `value || default` is concrete whenever the default is. -/
theorem jsOr_concrete (a b : JSVal) (hb : b.concrete) : (jsOr a b).concrete := by
  unfold jsOr
  by_cases ha : a.truthy
  · rw [if_pos ha]
    cases a <;> simp [JSVal.truthy] at ha ⊢ <;> trivial
  · rw [if_neg ha]
    exact hb

/-- A loop iteration that returns keeps every recognized setting concrete. -/
theorem reconcileStep_concrete {st : CameraSettings} {version : JSVal} {key : String}
    {raw : JSVal} {st1 : CameraSettings} {entry : Option (String × JSVal)}
    (hstep : reconcileStep st version key raw = .ok (st1, entry))
    (h : SettingsConcrete st) : SettingsConcrete st1 := by
  unfold reconcileStep at hstep
  by_cases hv : key = "$version"
  · rw [if_pos hv] at hstep
    cases hstep
    exact h
  · rw [if_neg hv] at hstep
    rcases hraw : jsHasOwnValue raw with e | hasVal <;> rw [hraw] at hstep
    · cases hstep
    · obtain ⟨h1, h2, h3, h4⟩ := h
      split_ifs at hstep <;> cases hstep <;>
        exact ⟨by first | exact jsOr_concrete _ _ (by trivial) | assumption,
               by first | exact jsOr_concrete _ _ (by trivial) | assumption,
               by first | exact jsOr_concrete _ _ (by trivial) | assumption,
               by first | exact jsOr_concrete _ _ (by trivial) | assumption⟩

/-- The reconciliation loop keeps every recognized setting concrete, for any field
list, including when an iteration throws. -/
theorem reconcileLoop_concrete (version : JSVal) :
    ∀ (fields : List (String × JSVal)) (st : CameraSettings),
      SettingsConcrete st → SettingsConcrete (reconcileLoop st version fields).1 := by
  intro fields
  induction fields with
  | nil => intro st h; exact h
  | cons p rest ih =>
    intro st h
    obtain ⟨k, raw⟩ := p
    simp only [reconcileLoop]
    rcases hstep : reconcileStep st version k raw with e | pr
    · exact h
    · obtain ⟨st1, entry⟩ := pr
      exact ih st1 (reconcileStep_concrete hstep h)

/-- Claim C3: for every recognized setting key, reconciling the empty delta,
`{key: undefined}` and `{key: {value: undefined}}` each leaves the setting at its
documented default (starting from the default state; the `{key: undefined}` delta
makes the `hasOwnProperty` unwrap throw, which the outer catch absorbs, leaving the
settings untouched); and reconciliation is total: it never throws to its caller and
every recognized setting holds a concrete value afterwards, for any input value —
empty object, `null`, or a wrong type — and any concrete prior state. -/
theorem reconcile_defaults_and_total :
    (∀ k ∈ recognizedSettingKeys,
      settingValue (onHandleDeviceProperties defaultCameraSettings (.obj [])).1 k =
          settingDefault k ∧
      settingValue (onHandleDeviceProperties defaultCameraSettings (.obj [(k, .jsUndefined)])).1 k =
          settingDefault k ∧
      settingValue (onHandleDeviceProperties defaultCameraSettings
          (.obj [(k, .obj [("value", .jsUndefined)])])).1 k = settingDefault k) ∧
    (∀ (st : CameraSettings) (desired : JSVal), SettingsConcrete st →
      SettingsConcrete (onHandleDeviceProperties st desired).1) := by
  constructor
  · intro k hk
    fin_cases hk <;> exact ⟨rfl, rfl, rfl⟩
  · intro st desired h
    have hloop := reconcileLoop_concrete (desired.objGet "$version") (forInFields desired) st h
    simp only [onHandleDeviceProperties]
    split_ifs <;> exact hloop

/-- Witness for `reconcile_defaults_and_total` at the key `wpInferenceTimeout` and, for
totality, at the default state with a wrong-type (`null`) delta. -/
theorem reconcile_defaults_and_total_witness :
    (settingValue (onHandleDeviceProperties defaultCameraSettings (.obj [])).1
        "wpInferenceTimeout" = settingDefault "wpInferenceTimeout" ∧
      settingValue (onHandleDeviceProperties defaultCameraSettings
          (.obj [("wpInferenceTimeout", .jsUndefined)])).1 "wpInferenceTimeout" =
        settingDefault "wpInferenceTimeout" ∧
      settingValue (onHandleDeviceProperties defaultCameraSettings
          (.obj [("wpInferenceTimeout", .obj [("value", .jsUndefined)])])).1 "wpInferenceTimeout" =
        settingDefault "wpInferenceTimeout") ∧
    SettingsConcrete (onHandleDeviceProperties defaultCameraSettings .jsNull).1 :=
  ⟨reconcile_defaults_and_total.1 "wpInferenceTimeout" (by simp [recognizedSettingKeys]),
   reconcile_defaults_and_total.2 defaultCameraSettings .jsNull
     ⟨trivial, trivial, trivial, trivial⟩⟩

/-- Every window emitted by a timer firing starts at the current
`videoInferenceStartTime`, ends at `now`, and the firing resets
`videoInferenceStartTime` to `now`. -/
theorem inferenceTimerStep_emit {cfg : TrackerConfig} {s : TrackerState} {now : Int}
    {w : Int × Int} (h : (inferenceTimerStep cfg s now).2 = some w) :
    w = (s.videoInferenceStartTime, now) ∧
      (inferenceTimerStep cfg s now).1.videoInferenceStartTime = now := by
  unfold inferenceTimerStep at h ⊢
  by_cases h1 : now - s.lastInferenceTime ≥ cfg.wpInferenceTimeout
  · rw [if_pos h1] at h ⊢
    by_cases h2 : s.createVideoLinkForInferenceTimeout <;> simp_all
  · rw [if_neg h1] at h ⊢
    by_cases h2 : now - s.videoInferenceStartTime ≥ cfg.wpMaxVideoInferenceTime <;> simp_all

/-- The end instants of the windows emitted by a run form a sublist of the tick
instants. -/
theorem runTracker_ends_sublist (cfg : TrackerConfig) :
    ∀ (evs : List TrackerEvent) (s : TrackerState),
      List.Sublist ((runTracker cfg s evs).2.map Prod.snd) (tickTimes evs) := by
  intro evs
  induction evs with
  | nil => intro s; simp [runTracker, tickTimes]
  | cons e rest ih =>
    intro s
    cases e with
    | tick t =>
      simp only [runTracker, tickTimes]
      rcases he : (inferenceTimerStep cfg s t).2 with _ | w
      · simpa [he] using List.Sublist.cons t (ih _)
      · have hw := (inferenceTimerStep_emit he).1
        subst hw
        simpa [he] using List.Sublist.cons₂ t (ih _)
    | inference t =>
      simp only [runTracker, tickTimes]
      exact ih _

/-- Claim C4: over any sequence of timer ticks and inference arrivals in which the
1-second ticks fire at strictly increasing instants, the tracker never emits two
video-link events for the same window: all emitted windows are pairwise distinct.
Moreover every emission covers `[videoInferenceStartTime, now]` and is immediately
followed by resetting `videoInferenceStartTime` to `now`, and an emission from the
inference-timeout branch also clears `createVideoLinkForInferenceTimeout`. -/
theorem inferenceTimer_no_double_window :
    ∀ (cfg : TrackerConfig) (s : TrackerState) (evs : List TrackerEvent),
      (tickTimes evs).Pairwise (fun a b => a < b) →
      (runTracker cfg s evs).2.Pairwise (fun w1 w2 => w1 ≠ w2) ∧
      (∀ (s0 : TrackerState) (now : Int) (w : Int × Int),
        (inferenceTimerStep cfg s0 now).2 = some w →
        w = (s0.videoInferenceStartTime, now) ∧
        (inferenceTimerStep cfg s0 now).1.videoInferenceStartTime = now) ∧
      (∀ (s0 : TrackerState) (now : Int),
        now - s0.lastInferenceTime ≥ cfg.wpInferenceTimeout →
        (inferenceTimerStep cfg s0 now).1.createVideoLinkForInferenceTimeout = false) := by
  intro cfg s evs hticks
  refine ⟨?_, fun s0 now w h => inferenceTimerStep_emit h, ?_⟩
  · have hsub := runTracker_ends_sublist cfg evs s
    have hp : ((runTracker cfg s evs).2.map Prod.snd).Pairwise (fun a b => a < b) :=
      hticks.sublist hsub
    have hp2 : (runTracker cfg s evs).2.Pairwise (fun w1 w2 => w1.2 < w2.2) :=
      (List.pairwise_map).1 hp
    exact hp2.imp (fun hlt he => by rw [he] at hlt; exact lt_irrefl _ hlt)
  · intro s0 now htimeout
    unfold inferenceTimerStep
    rw [if_pos htimeout]
    by_cases hflag : s0.createVideoLinkForInferenceTimeout <;> simp [hflag]

/-- Witness for `inferenceTimer_no_double_window`: timeout 5s, max video time 10s, a
burst of inferences then silence — ticks at 1, 2, 12 with inferences at 0 and 1 emit
exactly one link, for the window ending at the timeout tick. -/
theorem inferenceTimer_no_double_window_witness :
    (runTracker ⟨5, 10⟩ ⟨0, 0, false⟩
        [.inference 0, .tick 1, .inference 1, .tick 2, .tick 12]).2.Pairwise
      (fun w1 w2 => w1 ≠ w2) :=
  (inferenceTimer_no_double_window ⟨5, 10⟩ ⟨0, 0, false⟩
    [.inference 0, .tick 1, .inference 1, .tick 2, .tick 12]
    (by simp [tickTimes])).1

/-- Invariant of the reachable health states: the configured retry count is positive,
the streak stays strictly below it (a check that reaches it restarts the process), and
a Good health state always has a zero streak (failure is absorbing: nothing inside
`getHealth` restores Good, so a successful check can only follow successful checks). -/
theorem healthReachable_invariant :
    ∀ st, HealthReachable st →
      1 ≤ st.retries ∧ st.failStreak + 1 ≤ st.retries ∧
        (st.healthState = HealthStateGood → st.failStreak = 0) := by
  intro st h
  induction h with
  | init retries h0 hr hcase =>
    refine ⟨hr, ?_, fun _ => rfl⟩
    show 0 + 1 ≤ retries
    omega
  | check st env hre hnr ih =>
    obtain ⟨ih1, ih2, ih3⟩ := ih
    unfold getHealthStep at hnr ⊢
    by_cases hgood : st.healthState = HealthStateGood <;>
      by_cases hthrow : env.sendThrows = true <;>
      by_cases hmem : env.freeMemory = 0 <;>
      simp only [hgood, hthrow, hmem, if_pos, if_neg, if_true, if_false,
        HealthStateGood, HealthStateCritical] at hnr ⊢ <;>
      split_ifs at hnr ⊢ <;>
      simp_all [HealthStateGood, HealthStateCritical] <;> omega
  | clientError st hre ih =>
    obtain ⟨ih1, ih2, ih3⟩ := ih
    refine ⟨ih1, ih2, fun hg => ?_⟩
    simp [HealthStateCritical, HealthStateGood] at hg

/-- Claim C8: from any reachable state of the health loop, one `getHealth` check
increments the consecutive-failure streak exactly when it observes a non-Good health
state, a check that ends Good has a zero streak (the reset-on-success reading: after
every successful check the streak is zero), and the full process restart is triggered
exactly when the streak reaches the configured retry threshold. -/
theorem healthCheck_streak :
    ∀ st, HealthReachable st → ∀ env : HealthCheckEnv,
      ((getHealthStep st env).1.healthState < HealthStateGood →
        (getHealthStep st env).1.failStreak = st.failStreak + 1) ∧
      ((getHealthStep st env).1.healthState = HealthStateGood →
        (getHealthStep st env).1.failStreak = 0) ∧
      ((getHealthStep st env).2.1 = true ↔ (getHealthStep st env).1.failStreak = st.retries) := by
  intro st hre env
  obtain ⟨h1, h2, h3⟩ := healthReachable_invariant st hre
  unfold getHealthStep
  by_cases hgood : st.healthState = HealthStateGood <;>
    by_cases hthrow : env.sendThrows = true <;>
    by_cases hmem : env.freeMemory = 0 <;>
    simp only [hgood, hthrow, hmem, if_pos, if_neg, if_true, if_false,
      HealthStateGood, HealthStateCritical] at h3 ⊢ <;>
    split_ifs <;>
    simp_all [HealthStateGood, HealthStateCritical] <;> omega

/-- Witness for `healthCheck_streak`: the initial Good state with threshold 3, checked
while the free-memory sample reads 0, degrades to Critical with streak 1 and no
restart. -/
theorem healthCheck_streak_witness :
    ((getHealthStep ⟨2, 0, 3⟩ ⟨0, false⟩).1.healthState < HealthStateGood →
      (getHealthStep ⟨2, 0, 3⟩ ⟨0, false⟩).1.failStreak = 0 + 1) ∧
    ((getHealthStep ⟨2, 0, 3⟩ ⟨0, false⟩).1.healthState = HealthStateGood →
      (getHealthStep ⟨2, 0, 3⟩ ⟨0, false⟩).1.failStreak = 0) ∧
    ((getHealthStep ⟨2, 0, 3⟩ ⟨0, false⟩).2.1 = true ↔
      (getHealthStep ⟨2, 0, 3⟩ ⟨0, false⟩).1.failStreak = 3) :=
  healthCheck_streak ⟨2, 0, 3⟩
    (HealthReachable.init 3 2 (by omega) (Or.inl rfl)) ⟨0, false⟩

/-- Appending a pipeline-start action preserves `readyOnlyAfterDelta`. -/
theorem readyOnlyAfterDelta_append_start :
    ∀ l : List SessionAction, readyOnlyAfterDelta l = true →
      readyOnlyAfterDelta (l ++ [SessionAction.pipelineStartCall]) = true := by
  intro l
  induction l with
  | nil => intro h; rfl
  | cons a rest ih =>
    intro h
    cases a with
    | deltaCompleted => rfl
    | pipelineStartCall => exact ih h
    | deviceReady => exact Bool.noConfusion h
    | connectedTelemetry => exact Bool.noConfusion h

/-- Appending a delta-completed action preserves `readyOnlyAfterDelta`. -/
theorem readyOnlyAfterDelta_append_delta :
    ∀ l : List SessionAction, readyOnlyAfterDelta l = true →
      readyOnlyAfterDelta (l ++ [SessionAction.deltaCompleted]) = true := by
  intro l
  induction l with
  | nil => intro h; rfl
  | cons a rest ih =>
    intro h
    cases a with
    | deltaCompleted => rfl
    | pipelineStartCall => exact ih h
    | deviceReady => exact Bool.noConfusion h
    | connectedTelemetry => exact Bool.noConfusion h

/-- Once a delta has completed, any suffix may be appended without breaking
`readyOnlyAfterDelta`. -/
theorem readyOnlyAfterDelta_append_of_delta :
    ∀ l : List SessionAction, SessionAction.deltaCompleted ∈ l →
      readyOnlyAfterDelta l = true →
      ∀ l2 : List SessionAction, readyOnlyAfterDelta (l ++ l2) = true := by
  intro l
  induction l with
  | nil => intro hmem; exact absurd hmem (List.not_mem_nil _)
  | cons a rest ih =>
    intro hmem h l2
    cases a with
    | deltaCompleted => rfl
    | pipelineStartCall =>
      have hmem2 : SessionAction.deltaCompleted ∈ rest := by
        rcases List.mem_cons.1 hmem with heq | hm
        · cases heq
        · exact hm
      exact ih hmem2 h l2
    | deviceReady => exact Bool.noConfusion h
    | connectedTelemetry => exact Bool.noConfusion h

/-- Counterexample to claim C1: the event sequence
`[connectInternal true, deliverStartCommand]` is a valid trace of the session — the
start-processing direct-method handler is registered by `connectDeviceClientInternal`
before the gate is awaited and contains no wait on `deferredStart` — and in its final
state a pipeline start has occurred while the gate is still unresolved and no
desired-property-delta callback has completed. -/
theorem connect_gate_counterexample :
    runSession initSessionTrace
        [SessionEvent.connectInternal true, SessionEvent.deliverStartCommand] =
      some { handlersRegistered := true, gateResolved := false, firstDeltaDone := false,
             log := [SessionAction.pipelineStartCall] } ∧
    noStartBeforeDelta [SessionAction.pipelineStartCall] = false := by
  exact ⟨rfl, rfl⟩

/-- Claim C1 amended: the deferredStart gate orders only the tail of
`connectDeviceClient` — in every valid trace of the session, `deviceReady` and the
Connected-state telemetry never occur before the first desired-property-delta callback
has completed, and the gate resolves only through that callback.  Pipeline-start
direct-method invocations are not gated: a start command delivered after handler
registration but before the first delta callback performs the pipeline-start calls
with the gate unresolved. -/
theorem connect_gate_orders_deviceReady :
    ∀ (evs : List SessionEvent) (st : SessionTraceState),
      runSession initSessionTrace evs = some st →
      readyOnlyAfterDelta st.log = true ∧
      (st.gateResolved = true → st.firstDeltaDone = true) := by
  have hgen : ∀ (evs : List SessionEvent) (st0 : SessionTraceState),
      readyOnlyAfterDelta st0.log = true →
      (st0.gateResolved = true → SessionAction.deltaCompleted ∈ st0.log) →
      (st0.gateResolved = true → st0.firstDeltaDone = true) →
      ∀ st, runSession st0 evs = some st →
        readyOnlyAfterDelta st.log = true ∧
        (st.gateResolved = true → SessionAction.deltaCompleted ∈ st.log) ∧
        (st.gateResolved = true → st.firstDeltaDone = true) := by
    intro evs
    induction evs with
    | nil =>
      intro st0 h1 h2 h3 st hrun
      cases hrun
      exact ⟨h1, h2, h3⟩
    | cons e rest ih =>
      intro st0 h1 h2 h3 st hrun
      cases e with
      | connectInternal ok =>
        cases hreg : st0.handlersRegistered with
        | true => simp [runSession, sessionStep, hreg] at hrun
        | false =>
          cases ok with
          | true =>
            simp only [runSession, sessionStep, hreg, Bool.false_eq_true, if_false,
              if_true] at hrun
            exact ih ⟨true, st0.gateResolved, st0.firstDeltaDone, st0.log⟩ h1 h2 h3 st hrun
          | false =>
            simp only [runSession, sessionStep, hreg, Bool.false_eq_true, if_false] at hrun
            exact ih st0 h1 h2 h3 st hrun
      | deliverDelta =>
        cases hreg : st0.handlersRegistered with
        | false => simp [runSession, sessionStep, hreg] at hrun
        | true =>
          simp only [runSession, sessionStep, hreg, if_true] at hrun
          exact ih ⟨true, true, true,
              st0.log ++ [SessionAction.deltaCompleted]⟩
            (readyOnlyAfterDelta_append_delta _ h1)
            (fun _ => by simp) (fun _ => rfl) st hrun
      | deliverStartCommand =>
        cases hreg : st0.handlersRegistered with
        | false => simp [runSession, sessionStep, hreg] at hrun
        | true =>
          simp only [runSession, sessionStep, hreg, if_true] at hrun
          refine ih ⟨true, st0.gateResolved, st0.firstDeltaDone,
              st0.log ++ [SessionAction.pipelineStartCall]⟩
            (readyOnlyAfterDelta_append_start _ h1) ?_ h3 st hrun
          intro hg
          exact List.mem_append.2 (Or.inl (h2 hg))
      | finishConnect =>
        cases hg : st0.gateResolved with
        | false => simp [runSession, sessionStep, hg] at hrun
        | true =>
          simp only [runSession, sessionStep, hg, if_true] at hrun
          refine ih ⟨st0.handlersRegistered, true, st0.firstDeltaDone,
              st0.log ++ [SessionAction.deviceReady, SessionAction.connectedTelemetry]⟩
            (readyOnlyAfterDelta_append_of_delta _ (h2 hg) h1 _) ?_ (fun _ => h3 hg) st hrun
          intro hg2
          exact List.mem_append.2 (Or.inl (h2 hg))
  intro evs st hrun
  have h := hgen evs initSessionTrace rfl (by intro h; cases h) (by intro h; cases h) st hrun
  exact ⟨h.1, h.2.2⟩

/-- Witness for `connect_gate_orders_deviceReady` on the nominal trace: connect, first
(empty) delta, post-gate continuation, then a start command. -/
theorem connect_gate_orders_deviceReady_witness :
    readyOnlyAfterDelta
        [SessionAction.deltaCompleted, SessionAction.deviceReady,
          SessionAction.connectedTelemetry, SessionAction.pipelineStartCall] = true :=
  (connect_gate_orders_deviceReady
    [SessionEvent.connectInternal true, SessionEvent.deliverDelta,
      SessionEvent.finishConnect, SessionEvent.deliverStartCommand]
    { handlersRegistered := true, gateResolved := true, firstDeltaDone := true,
      log := [SessionAction.deltaCompleted, SessionAction.deviceReady,
        SessionAction.connectedTelemetry, SessionAction.pipelineStartCall] }
    rfl).1

end LvaGateway
